import Mathlib

/-!
Shallow embedding of `ldsrkn/dmx-controller` (files `working_dmx.py` and
`dmx_test.py`) and verification of its specification claims.

Conventions:
* a Python `bytearray` is a `List Int` (all stored values lie in `[0, 255]`,
  which the embedding preserves because every store masks with `&&& 255` or
  stores an in-range literal);
* Python's `&` on arbitrary-precision signed integers is two's-complement
  bitwise and, i.e. `Int.land`;
* serial-port side effects are recorded as an explicit trace of `SerialOp`
  values; the possible outcomes of fallible I/O (does the device open, does a
  write raise) are passed in as boolean parameters;
* timeouts are in microseconds, so pyserial's `0.01` seconds is `some 10000`
  and an omitted (`None`) timeout is `none`.
-/

set_option maxRecDepth 8192

namespace DMX

/-- Python `int(value) & 0xFF` (`working_dmx.py`, line 47): two's-complement
bitwise and with `0xFF` on an arbitrary signed integer. -/
def maskByte (v : Int) : Int :=
  Int.land v 255

/-- The serial-line parameters passed to `serial.Serial(...)` at an open call
site.  `parity` mirrors pyserial's `PARITY_NONE` (`'N'`) versus the others;
timeouts are in microseconds, `none` meaning pyserial's `None` (block
forever). -/
inductive Parity where
  | noParity
  | even
  | odd
deriving DecidableEq, Repr

structure SerialConfig where
  port : String
  baudrate : Nat
  bytesize : Nat
  parity : Parity
  stopbits : Nat
  timeout : Option Nat
  write_timeout : Option Nat
deriving DecidableEq, Repr

/-- One observable operation on a serial port.  `write` and `flush` are the
pyserial calls `port.write(data)` and `port.flush()`; `brk` stands for
pyserial's break-signal primitive (`send_break` / `break_condition`), which the
repository never invokes; `sleepUs` is `time.sleep` in microseconds. -/
inductive SerialOp where
  | write (data : List Int)
  | flush
  | brk (durationUs : Nat)
  | sleepUs (durationUs : Nat)
deriving DecidableEq, Repr

/-- State of a `WorkingDMXController` instance (`working_dmx.py`, `__init__`):
the configured port name, the optional open handle `dmx_port` (a
`SerialConfig` standing for the live `serial.Serial` object, `none` = not
open), and `frame_count`. -/
structure ControllerState where
  port : String
  dmx_port : Option SerialConfig
  frame_count : Nat
deriving DecidableEq, Repr

namespace WorkingDMXController

/-- `WorkingDMXController.__init__(port='/dev/ttySC0')`. -/
def init (port : String) : ControllerState :=
  { port := port, dmx_port := none, frame_count := 0 }

/-- The serial settings used by `WorkingDMXController.open`
(`working_dmx.py`, lines 20–28): 250000 baud, 8 data bits, `PARITY_NONE`,
2 stop bits, `timeout=0.01`, `write_timeout=0.01`. -/
def openConfig (port : String) : SerialConfig :=
  { port := port, baudrate := 250000, bytesize := 8, parity := Parity.noParity,
    stopbits := 2, timeout := some 10000, write_timeout := some 10000 }

/-- `WorkingDMXController.open` (`working_dmx.py`, lines 17–33).
`success` is whether the `serial.Serial(...)` constructor succeeds; on an
exception the assignment to `self.dmx_port` never happens and the method
returns `False`. -/
def «open» (s : ControllerState) (success : Bool) : ControllerState × Bool :=
  if success then
    ({ s with dmx_port := some (openConfig s.port) }, true)
  else
    (s, false)

end WorkingDMXController

/-- The per-channel copy loop of `send_dmx_frame_simple`
(`working_dmx.py`, lines 46–47):
`for i, value in enumerate(channels[:512]): frame[i + 1] = int(value) & 0xFF`,
translated with the enumeration index made explicit.  The caller passes the
already-sliced list `channels[:512]`. -/
def copyChannels (frame : List Int) (i : Nat) : List Int → List Int
  | [] => frame
  | v :: vs => copyChannels (frame.set (i + 1) (maskByte v)) (i + 1) vs

/-- The frame built by `send_dmx_frame_simple` (`working_dmx.py`, lines
41–47): `frame = bytearray(513)`, `frame[0] = 0x00`, then the copy loop over
`channels[:512]`. -/
def buildFrame (channels : List Int) : List Int :=
  copyChannels (((List.replicate 513 (0 : Int)).set 0 0)) 0 (channels.take 512)

/-- `WorkingDMXController.send_dmx_frame_simple` (`working_dmx.py`, lines
35–56).  Returns the new state, the boolean result, and the trace of serial
operations performed.  `writeOk` is whether `self.dmx_port.write(frame)`
succeeds; if it raises, the exception is caught, nothing further runs in the
`try` block, and the method returns `False`. -/
def send_dmx_frame_simple (s : ControllerState) (channels : List Int)
    (writeOk : Bool) : ControllerState × Bool × List SerialOp :=
  match s.dmx_port with
  | none => (s, false, [])
  | some _ =>
    if writeOk then
      ({ s with frame_count := s.frame_count + 1 }, true,
        [SerialOp.write (buildFrame channels)])
    else
      (s, false, [SerialOp.write (buildFrame channels)])

/-- The channel list of `WorkingDMXController.test_pattern`
(`working_dmx.py`, line 69): `[255, 128, 64, 32, 16, 8, 4, 2] + [0] * 504`. -/
def testPatternChannels : List Int :=
  [255, 128, 64, 32, 16, 8, 4, 2] ++ List.replicate 504 0

/-- The `for i in range(10)` loop of `test_pattern` (`working_dmx.py`, lines
71–77), generalised to `n` remaining iterations starting at attempt number
`k`.  `ok j` is whether the write of the `j`-th attempted frame succeeds.
Returns the final controller state and the number of frame sends attempted;
on a send returning `False` the Python loop executes `break`, so no further
iteration runs. -/
def testPatternLoop (channels : List Int) (ok : Nat → Bool) :
    Nat → Nat → ControllerState → ControllerState × Nat
  | 0, _, s => (s, 0)
  | n + 1, k, s =>
    let r := send_dmx_frame_simple s channels (ok k)
    if r.2.1 then
      let rest := testPatternLoop channels ok n (k + 1) r.1
      (rest.1, rest.2 + 1)
    else
      (r.1, 1)

/-- A controller on which `open` has succeeded (the state `test_pattern`
reaches before its send loop). -/
def openedController : ControllerState :=
  (WorkingDMXController.open (WorkingDMXController.init "/dev/ttySC0") true).1

/-- Bytearray stores in Python raise `IndexError` when the index is out of
bounds.  `copyChannelsChecked` is the copy loop of `send_dmx_frame_simple`
with that check made explicit: it returns `none` exactly when some store of
the loop would be out of bounds. -/
def copyChannelsChecked (frame : List Int) (i : Nat) :
    List Int → Option (List Int)
  | [] => some frame
  | v :: vs =>
    if i + 1 < frame.length then
      copyChannelsChecked (frame.set (i + 1) (maskByte v)) (i + 1) vs
    else
      none

/-- `buildFrame` with every bytearray store bounds-checked. -/
def buildFrameChecked (channels : List Int) : Option (List Int) :=
  copyChannelsChecked (((List.replicate 513 (0 : Int)).set 0 0)) 0
    (channels.take 512)

namespace dmx_test

/-- The serial settings of `test_basic_port_access` (`dmx_test.py`, lines
21–26): 9600 baud with pyserial defaults (8 data bits, no parity, 1 stop
bit), `timeout=0.01`, `write_timeout=0.01`.  Not a DMX-transmission open. -/
def basicPortConfig (port : String) : SerialConfig :=
  { port := port, baudrate := 9600, bytesize := 8, parity := Parity.noParity,
    stopbits := 1, timeout := some 10000, write_timeout := some 10000 }

/-- The serial settings of `test_dmx_basic_output` (`dmx_test.py`, lines
47–56): 250000 baud, 8 data bits, `PARITY_NONE`, 2 stop bits,
`timeout=0.01`, `write_timeout=0.01`. -/
def basicOutputConfig : SerialConfig :=
  { port := "/dev/ttySC0", baudrate := 250000, bytesize := 8,
    parity := Parity.noParity, stopbits := 2, timeout := some 10000,
    write_timeout := some 10000 }

/-- `test_frame` of `test_dmx_basic_output` (`dmx_test.py`, lines 63–72):
`bytearray(513)` with `[0] = 0x00` and channels 1–8 set to the listed test
levels. -/
def test_frame : List Int :=
  ((((((((((List.replicate 513 (0 : Int)).set 0 0).set 1 255).set 2 128).set
      3 64).set 4 32).set 5 255).set 6 0).set 7 255).set 8 0)

/-- The serial operations of one iteration of the send loop of
`test_dmx_basic_output` (`dmx_test.py`, lines 77–82):
`dmx_port.write(test_frame)`, `dmx_port.flush()`, `time.sleep(0.04)`. -/
def basicOutputIterOps : List SerialOp :=
  [SerialOp.write test_frame, SerialOp.flush, SerialOp.sleepUs 40000]

/-- The serial-operation trace of the send loop of `test_dmx_basic_output`
on its success path (`for frame_num in range(5)`). -/
def basicOutputOps : List SerialOp :=
  (List.replicate 5 basicOutputIterOps).flatten

/-- The serial settings of `test_pattern_output` (`dmx_test.py`, line 106):
`serial.Serial('/dev/ttySC0', 250000, 8, 'N', 2, timeout=0.01)` — the
positional arguments, with `write_timeout` left at pyserial's default
`None`, i.e. writes may block forever. -/
def patternOutputConfig : SerialConfig :=
  { port := "/dev/ttySC0", baudrate := 250000, bytesize := 8,
    parity := Parity.noParity, stopbits := 2, timeout := some 10000,
    write_timeout := none }

/-- The pattern list of `test_pattern_output` (`dmx_test.py`, lines
110–116). -/
def patterns : List (List Int) :=
  [[255, 0, 0, 0], [0, 255, 0, 0], [0, 0, 255, 0], [255, 255, 255, 0],
    [0, 0, 0, 0]]

/-- The copy loop of `test_pattern_output` (`dmx_test.py`, lines 122–123):
`for ch, value in enumerate(pattern): frame[ch + 1] = value` — note: no
`& 0xFF` masking here. -/
def copyRaw (frame : List Int) (i : Nat) : List Int → List Int
  | [] => frame
  | v :: vs => copyRaw (frame.set (i + 1) v) (i + 1) vs

/-- The frame built for one pattern in `test_pattern_output` (`dmx_test.py`,
lines 118–123). -/
def patternFrame (p : List Int) : List Int :=
  copyRaw ((List.replicate 513 (0 : Int)).set 0 0) 0 p

/-- The serial-operation trace of the pattern loop of `test_pattern_output`
on its success path (`dmx_test.py`, lines 118–129): per pattern a write, a
`flush()`, and `time.sleep(1.0)`. -/
def patternOutputOps : List SerialOp :=
  (patterns.map (fun p =>
    [SerialOp.write (patternFrame p), SerialOp.flush,
      SerialOp.sleepUs 1000000])).flatten

end dmx_test

/-! ### Helper lemmas about the copy loop and the assembled frame -/

theorem maskByte_eq_emod (v : Int) : maskByte v = v % 256 := by
  have hldiff : ∀ m : Nat, Nat.ldiff 255 m = 255 - m % 256 := by
    intro m
    apply Nat.eq_of_testBit_eq
    intro i
    rw [Nat.testBit_ldiff]
    have h256 : m % 256 < 2 ^ 8 := by
      have := Nat.mod_lt m (y := 256) (by norm_num)
      omega
    have hsub : (255 : Nat) - m % 256 = 2 ^ 8 - (m % 256 + 1) := by omega
    rw [hsub, Nat.testBit_two_pow_sub_succ h256]
    have h255 : (255 : Nat) = 2 ^ 8 - 1 := by norm_num
    rcases Nat.lt_or_ge i 8 with h | h
    · have hm : Nat.testBit (m % 256) i = Nat.testBit m i := by
        have hmod : m % 256 = m % 2 ^ 8 := by norm_num
        rw [hmod, Nat.testBit_mod_two_pow]
        simp [h]
      have ht : Nat.testBit 255 i = true := by
        rw [h255, Nat.testBit_two_pow_sub_one]
        simp [h]
      simp [hm, ht, h]
    · have ht : Nat.testBit 255 i = false := by
        rw [h255, Nat.testBit_two_pow_sub_one]
        simp
        omega
      have hni : ¬ i < 8 := by omega
      simp [ht, hni]
  cases v with
  | ofNat m =>
    have h1 : maskByte (Int.ofNat m) = Int.ofNat (m &&& 255) := rfl
    have h2 : m &&& 255 = m % 256 := by
      have h255 : (255 : Nat) = 2 ^ 8 - 1 := by norm_num
      rw [h255, Nat.and_pow_two_sub_one_eq_mod]
    rw [h1, h2, Int.ofNat_eq_natCast, Int.ofNat_eq_natCast]
    omega
  | negSucc m =>
    have h1 : maskByte (Int.negSucc m) = Int.ofNat (Nat.ldiff 255 m) := rfl
    rw [h1, hldiff, Int.ofNat_eq_natCast, Int.negSucc_eq]
    omega

theorem maskByte_nonneg (v : Int) : 0 ≤ maskByte v := by
  rw [maskByte_eq_emod]
  exact Int.emod_nonneg v (by norm_num)

theorem maskByte_lt (v : Int) : maskByte v < 256 := by
  rw [maskByte_eq_emod]
  exact Int.emod_lt_of_pos v (by norm_num)

theorem maskByte_of_mem_range (v : Int) (h0 : 0 ≤ v) (h1 : v ≤ 255) :
    maskByte v = v := by
  rw [maskByte_eq_emod]
  exact Int.emod_eq_of_lt h0 (by omega)

theorem copyChannels_length (cs : List Int) :
    ∀ (frame : List Int) (i : Nat),
      (copyChannels frame i cs).length = frame.length := by
  induction cs with
  | nil => intro frame i; rfl
  | cons v vs ih =>
    intro frame i
    rw [copyChannels, ih, List.length_set]

theorem copyChannels_getElem?_le (cs : List Int) :
    ∀ (frame : List Int) (i j : Nat), j ≤ i →
      (copyChannels frame i cs)[j]? = frame[j]? := by
  induction cs with
  | nil => intro frame i j _; rfl
  | cons v vs ih =>
    intro frame i j h
    rw [copyChannels, ih _ _ _ (by omega), List.getElem?_set_ne (by omega)]

theorem copyChannels_getElem?_gt (cs : List Int) :
    ∀ (frame : List Int) (i j : Nat), i + cs.length < j →
      (copyChannels frame i cs)[j]? = frame[j]? := by
  induction cs with
  | nil => intro frame i j _; rfl
  | cons v vs ih =>
    intro frame i j h
    simp only [List.length_cons] at h
    rw [copyChannels, ih _ _ _ (by omega), List.getElem?_set_ne (by omega)]

theorem copyChannels_getElem?_mid (cs : List Int) :
    ∀ (frame : List Int) (i j : Nat), i < j → j ≤ i + cs.length →
      j < frame.length →
      (copyChannels frame i cs)[j]? = (cs[j - i - 1]?).map maskByte := by
  induction cs with
  | nil =>
    intro frame i j h1 h2 _
    simp only [List.length_nil, Nat.add_zero] at h2
    omega
  | cons v vs ih =>
    intro frame i j h1 h2 h3
    rw [copyChannels]
    rcases Nat.eq_or_lt_of_le h1 with heq | hlt
    · have hj : j = i + 1 := heq.symm
      subst hj
      rw [copyChannels_getElem?_le vs _ _ _ (Nat.le_refl _),
        List.getElem?_set_self h3]
      have h0 : i + 1 - i - 1 = 0 := by omega
      rw [h0, List.getElem?_cons_zero]
      simp [Option.map]
    · have hmid := ih (frame.set (i + 1) (maskByte v)) (i + 1) j hlt
        (by simp only [List.length_cons] at h2; omega)
        (by rw [List.length_set]; exact h3)
      rw [hmid]
      have hidx : j - i - 1 = (j - (i + 1) - 1) + 1 := by omega
      rw [hidx, List.getElem?_cons_succ]

theorem buildFrame_length (channels : List Int) :
    (buildFrame channels).length = 513 := by
  rw [buildFrame, copyChannels_length, List.length_set, List.length_replicate]

theorem buildFrame_getElem?_zero (channels : List Int) :
    (buildFrame channels)[0]? = some 0 := by
  rw [buildFrame, copyChannels_getElem?_le _ _ _ _ (Nat.le_refl 0),
    List.getElem?_set_self (by simp)]

theorem buildFrame_getElem?_mid (channels : List Int) (i : Nat)
    (h1 : i < channels.length) (h2 : i < 512) :
    (buildFrame channels)[i + 1]? = (channels[i]?).map maskByte := by
  rw [buildFrame,
    copyChannels_getElem?_mid _ _ 0 (i + 1) (by omega)
      (by simp only [List.length_take, Nat.zero_add]; omega)
      (by simp only [List.length_set, List.length_replicate]; omega)]
  have hidx : i + 1 - 0 - 1 = i := by omega
  rw [hidx, List.getElem?_take_of_lt h2]

theorem buildFrame_getElem?_high (channels : List Int) (i : Nat)
    (h1 : min channels.length 512 ≤ i) (h2 : i < 512) :
    (buildFrame channels)[i + 1]? = some 0 := by
  rw [buildFrame,
    copyChannels_getElem?_gt _ _ 0 (i + 1)
      (by simp only [List.length_take, Nat.zero_add]; omega),
    List.getElem?_set_ne (by omega),
    List.getElem?_replicate_of_lt (by omega)]

theorem buildFrame_getElem?_none (channels : List Int) (j : Nat)
    (h : 513 ≤ j) : (buildFrame channels)[j]? = none := by
  apply List.getElem?_eq_none
  rw [buildFrame_length]
  exact h

theorem copyChannelsChecked_eq (cs : List Int) :
    ∀ (frame : List Int) (i : Nat), i + cs.length < frame.length →
      copyChannelsChecked frame i cs = some (copyChannels frame i cs) := by
  induction cs with
  | nil => intro frame i _; rfl
  | cons v vs ih =>
    intro frame i h
    simp only [List.length_cons] at h
    rw [copyChannelsChecked, copyChannels, if_pos (by omega)]
    exact ih _ _ (by rw [List.length_set]; omega)

theorem buildFrameChecked_eq (channels : List Int) :
    buildFrameChecked channels = some (buildFrame channels) := by
  rw [buildFrameChecked, buildFrame]
  apply copyChannelsChecked_eq
  simp only [List.length_take, List.length_set, List.length_replicate,
    Nat.zero_add]
  omega

/-! ### The claims -/

/-- C1: for every channel list of exactly 512 values each in 0..255, the
frame built for transmission by `send_dmx_frame_simple` is a byte sequence
of exactly 513 bytes whose first byte is 0x00 and whose byte at position
`i + 1` equals the value of channel `i` for every `i` in 0..511, in channel
order. -/
theorem C1_frame_layout (channels : List Int) (hlen : channels.length = 512)
    (hrange : ∀ v ∈ channels, 0 ≤ v ∧ v ≤ 255) :
    (buildFrame channels).length = 513 ∧
    (buildFrame channels)[0]? = some 0 ∧
    ∀ i, i < 512 → (buildFrame channels)[i + 1]? = channels[i]? := by
  refine ⟨buildFrame_length channels, buildFrame_getElem?_zero channels, ?_⟩
  intro i hi
  rw [buildFrame_getElem?_mid channels i (by omega) hi,
    List.getElem?_eq_getElem (by omega)]
  have hmem : channels[i] ∈ channels :=
    List.getElem?_mem (List.getElem?_eq_getElem (by omega))
  obtain ⟨h0, h1⟩ := hrange _ hmem
  simp [Option.map, maskByte_of_mem_range _ h0 h1]

/-- C1 witness: the all-sevens channel list satisfies the hypotheses of
`C1_frame_layout` and hence its frame layout. -/
theorem C1_frame_layout_witness :
    (List.replicate 512 (7 : Int)).length = 512 ∧
    (∀ v ∈ List.replicate 512 (7 : Int), 0 ≤ v ∧ v ≤ 255) ∧
    ((buildFrame (List.replicate 512 (7 : Int))).length = 513 ∧
      (buildFrame (List.replicate 512 (7 : Int)))[0]? = some 0 ∧
      ∀ i, i < 512 →
        (buildFrame (List.replicate 512 (7 : Int)))[i + 1]? =
          (List.replicate 512 (7 : Int))[i]?) :=
  ⟨by simp, by intro v hv; rw [List.eq_of_mem_replicate hv]; omega,
    C1_frame_layout _ (by simp)
      (by intro v hv; rw [List.eq_of_mem_replicate hv]; omega)⟩

/-- C10: for every channel list of any length `n`, `send_dmx_frame_simple`
builds a frame of exactly 513 bytes without any out-of-bounds bytearray
store (`buildFrameChecked`, the bounds-checked copy loop, succeeds): only
the first `min n 512` values are copied (extras are ignored) and every
remaining channel slot is 0.  The third conjunct characterises every
position of the frame. -/
theorem C10_any_length_safe (channels : List Int) :
    buildFrameChecked channels = some (buildFrame channels) ∧
    (buildFrame channels).length = 513 ∧
    ∀ j : Nat, (buildFrame channels)[j]? =
      (if j = 0 then some 0
       else if j ≤ min channels.length 512 then
         (channels[j - 1]?).map maskByte
       else if j ≤ 512 then some 0
       else none) := by
  refine ⟨buildFrameChecked_eq channels, buildFrame_length channels, ?_⟩
  intro j
  rcases Nat.eq_zero_or_pos j with hj0 | hjpos
  · subst hj0
    simp [buildFrame_getElem?_zero channels]
  · have hj1 : j = (j - 1) + 1 := by omega
    rcases Nat.lt_or_ge j (min channels.length 512 + 1) with hmid | hrest
    · rw [if_neg (by omega), if_pos (by omega), hj1,
        buildFrame_getElem?_mid channels (j - 1) (by omega) (by omega)]
      simp only [Nat.add_sub_cancel]
    · rcases Nat.lt_or_ge j 513 with hhigh | hnone
      · rw [if_neg (by omega), if_neg (by omega), if_pos (by omega), hj1,
          buildFrame_getElem?_high channels (j - 1) (by omega) (by omega)]
      · rw [if_neg (by omega), if_neg (by omega), if_neg (by omega),
          buildFrame_getElem?_none channels j (by omega)]

/-- C9: for every list of integer channel values of any sign and magnitude,
`send_dmx_frame_simple` transmits for the channel at position `i` exactly
the byte `value mod 256`, and the call never fails because of a value's
magnitude (with the port open and the write succeeding it returns `True`
for every channel list). -/
theorem C9_mod256 (s : ControllerState) (cfg : SerialConfig)
    (channels : List Int) (i : Nat) (hport : s.dmx_port = some cfg)
    (h1 : i < channels.length) (h2 : i < 512) :
    (send_dmx_frame_simple s channels true).2.1 = true ∧
    (send_dmx_frame_simple s channels true).2.2 =
      [SerialOp.write (buildFrame channels)] ∧
    (buildFrame channels)[i + 1]? = (channels[i]?).map (fun v => v % 256) := by
  refine ⟨by simp [send_dmx_frame_simple, hport],
    by simp [send_dmx_frame_simple, hport], ?_⟩
  rw [buildFrame_getElem?_mid channels i h1 h2]
  rcases h : channels[i]? with _ | v
  · rfl
  · simp [Option.map, maskByte_eq_emod]

/-- C9 witness: with the port open and channel values `300` and `-1`, the
send succeeds and channel 1 (position 1 in the list) is transmitted as
`-1 mod 256 = 255`. -/
theorem C9_mod256_witness :
    openedController.dmx_port =
      some (WorkingDMXController.openConfig "/dev/ttySC0") ∧
    (1 : Nat) < ([300, -1] : List Int).length ∧ (1 : Nat) < 512 ∧
    ((send_dmx_frame_simple openedController [300, -1] true).2.1 = true ∧
      (send_dmx_frame_simple openedController [300, -1] true).2.2 =
        [SerialOp.write (buildFrame [300, -1])] ∧
      (buildFrame [300, -1])[1 + 1]? =
        (([300, -1] : List Int)[1]?).map (fun v => v % 256)) :=
  ⟨rfl, by norm_num, by norm_num,
    C9_mod256 openedController _ [300, -1] 1 rfl (by norm_num) (by norm_num)⟩

/-- C4 is false as stated: with the port open, sending the out-of-range
channel value 300 does not fail with any error — `send_dmx_frame_simple`
returns `True`, and the value is silently altered to `300 & 0xFF = 44` and
transmitted as byte 1 of the written frame. -/
theorem C4_counterexample :
    (send_dmx_frame_simple openedController [300] true).2.1 = true ∧
    (send_dmx_frame_simple openedController [300] true).2.2 =
      [SerialOp.write (buildFrame [300])] ∧
    (buildFrame [300])[1]? = some 44 := by
  refine ⟨rfl, rfl, ?_⟩
  have h := buildFrame_getElem?_mid [300] 0 (by norm_num) (by norm_num)
  rw [h]
  simp [Option.map, maskByte_eq_emod]

/-- C4 amended: writing a channel value outside 0..255 never fails and is
never rejected: with the port open, `send_dmx_frame_simple` returns `True`,
silently truncates the value to its low 8 bits (`value & 0xFF`, i.e.
`value mod 256`), and transmits the truncated byte. -/
theorem C4_amended_silent_truncation (s : ControllerState)
    (cfg : SerialConfig) (v : Int) (hport : s.dmx_port = some cfg)
    (_hv : v < 0 ∨ 255 < v) :
    (send_dmx_frame_simple s [v] true).2.1 = true ∧
    (send_dmx_frame_simple s [v] true).2.2 =
      [SerialOp.write (buildFrame [v])] ∧
    (buildFrame [v])[1]? = some (v % 256) := by
  refine ⟨by simp [send_dmx_frame_simple, hport],
    by simp [send_dmx_frame_simple, hport], ?_⟩
  have h := buildFrame_getElem?_mid [v] 0 (by norm_num) (by norm_num)
  rw [h]
  simp [Option.map, maskByte_eq_emod]

/-- C4 amended witness: the truncation theorem applied at the concrete
out-of-range value 300 on the opened controller. -/
theorem C4_amended_silent_truncation_witness :
    openedController.dmx_port =
      some (WorkingDMXController.openConfig "/dev/ttySC0") ∧
    ((300 : Int) < 0 ∨ (255 : Int) < 300) ∧
    ((send_dmx_frame_simple openedController [300] true).2.1 = true ∧
      (send_dmx_frame_simple openedController [300] true).2.2 =
        [SerialOp.write (buildFrame [300])] ∧
      (buildFrame [300])[1]? = some ((300 : Int) % 256)) :=
  ⟨rfl, by norm_num,
    C4_amended_silent_truncation openedController _ 300 rfl (by norm_num)⟩

/-- C2 is false as stated: `test_pattern_output` opens its serial port with
`write_timeout` left at pyserial's default `None` (writes may block
forever), and both `test_dmx_basic_output` and `test_pattern_output` call
the unbounded blocking `flush()` after every frame write. -/
theorem C2_unbounded_operations :
    dmx_test.patternOutputConfig.write_timeout = none ∧
    SerialOp.flush ∈ dmx_test.patternOutputOps ∧
    SerialOp.flush ∈ dmx_test.basicOutputOps := by
  refine ⟨rfl, ?_, ?_⟩
  · simp [dmx_test.patternOutputOps, dmx_test.patterns]
  · simp [dmx_test.basicOutputOps, dmx_test.basicOutputIterOps,
      List.replicate]

/-- C3 is false of the code: the serial-operation trace of
`send_dmx_frame_simple` with the port open is exactly one write of the
513-byte frame — no break (and no mark-after-break) of any duration is ever
generated before the frame bytes are written. -/
theorem C3_no_break_before_frame (s : ControllerState) (cfg : SerialConfig)
    (channels : List Int) (writeOk : Bool) (hport : s.dmx_port = some cfg) :
    (send_dmx_frame_simple s channels writeOk).2.2 =
      [SerialOp.write (buildFrame channels)] ∧
    ∀ d, SerialOp.brk d ∉ (send_dmx_frame_simple s channels writeOk).2.2 := by
  have htrace : (send_dmx_frame_simple s channels writeOk).2.2 =
      [SerialOp.write (buildFrame channels)] := by
    cases writeOk <;> simp [send_dmx_frame_simple, hport]
  refine ⟨htrace, ?_⟩
  intro d
  rw [htrace]
  simp

/-- C3 witness: the trace theorem applied to the opened controller sending
the test pattern. -/
theorem C3_no_break_before_frame_witness :
    openedController.dmx_port =
      some (WorkingDMXController.openConfig "/dev/ttySC0") ∧
    ((send_dmx_frame_simple openedController testPatternChannels true).2.2 =
        [SerialOp.write (buildFrame testPatternChannels)] ∧
      ∀ d, SerialOp.brk d ∉
        (send_dmx_frame_simple openedController testPatternChannels
          true).2.2) :=
  ⟨rfl, C3_no_break_before_frame openedController _ testPatternChannels true
    rfl⟩

/-- C5 is false as stated: in the `test_pattern` loop, if the first frame
send fails and every later write would succeed, only one frame send is ever
attempted — the loop executes `break` and does not proceed to the next
frame — and no frame is counted as sent. -/
theorem C5_counterexample :
    (testPatternLoop testPatternChannels (fun k => decide (k ≠ 0)) 10 0
      openedController).2 = 1 ∧
    (testPatternLoop testPatternChannels (fun k => decide (k ≠ 0)) 10 0
      openedController).1.frame_count = 0 :=
  ⟨rfl, rfl⟩

/-- C5 amended: when a frame send fails during the `test_pattern` loop, the
failure is reported (printed) and not raised, but the loop stops
immediately: exactly one send is attempted from that point on, no
subsequent frame is sent, and the controller state (including
`frame_count`) is left unchanged by the failed attempt. -/
theorem C5_amended_loop_stops (channels : List Int) (ok : Nat → Bool)
    (n k : Nat) (s : ControllerState) (hfail : ok k = false) :
    testPatternLoop channels ok (n + 1) k s = (s, 1) := by
  cases hs : s.dmx_port <;>
    simp [testPatternLoop, hfail, send_dmx_frame_simple, hs]

/-- C5 amended witness: a loop of 10 scheduled frames whose first write
fails makes exactly one attempt and leaves the fresh controller state
unchanged. -/
theorem C5_amended_loop_stops_witness :
    (fun (_ : Nat) => false) 0 = false ∧
    testPatternLoop testPatternChannels (fun _ => false) 10 0
        openedController = (openedController, 1) :=
  ⟨rfl, C5_amended_loop_stops testPatternChannels _ 9 0 openedController rfl⟩

/-- C6: if `open` fails, the controller remains closed — starting from the
freshly constructed state, `dmx_port` is unset and stays unset — and the
failure is surfaced synchronously to the caller of `open` as the return
value `False`. -/
theorem C6_open_failure_stays_closed (p : String) :
    (WorkingDMXController.init p).dmx_port = none ∧
    WorkingDMXController.open (WorkingDMXController.init p) false =
      (WorkingDMXController.init p, false) :=
  ⟨rfl, rfl⟩

/-- C7: every successful open for DMX transmission configures the serial
line with exactly 250000 baud, 8 data bits, no parity and 2 stop bits: a
successful `WorkingDMXController.open` installs `openConfig`, and the
configurations of `open`, `test_dmx_basic_output` and `test_pattern_output`
all carry exactly these parameters. -/
theorem C7_dmx_line_parameters :
    (∀ s : ControllerState, (WorkingDMXController.open s true).1.dmx_port =
      some (WorkingDMXController.openConfig s.port)) ∧
    (∀ p : String, (WorkingDMXController.openConfig p).baudrate = 250000 ∧
      (WorkingDMXController.openConfig p).bytesize = 8 ∧
      (WorkingDMXController.openConfig p).parity = Parity.noParity ∧
      (WorkingDMXController.openConfig p).stopbits = 2) ∧
    (dmx_test.basicOutputConfig.baudrate = 250000 ∧
      dmx_test.basicOutputConfig.bytesize = 8 ∧
      dmx_test.basicOutputConfig.parity = Parity.noParity ∧
      dmx_test.basicOutputConfig.stopbits = 2) ∧
    (dmx_test.patternOutputConfig.baudrate = 250000 ∧
      dmx_test.patternOutputConfig.bytesize = 8 ∧
      dmx_test.patternOutputConfig.parity = Parity.noParity ∧
      dmx_test.patternOutputConfig.stopbits = 2) :=
  ⟨fun _ => rfl, fun _ => ⟨rfl, rfl, rfl, rfl⟩, ⟨rfl, rfl, rfl, rfl⟩,
    ⟨rfl, rfl, rfl, rfl⟩⟩

/-- C8: calling the transmission operation while no transport handle is
held (`dmx_port` is `None`, as before any successful `open`) fails
synchronously — `send_dmx_frame_simple` returns `False` immediately,
performs no serial operation, and leaves the state unchanged. -/
theorem C8_send_without_handle (s : ControllerState) (channels : List Int)
    (writeOk : Bool) (h : s.dmx_port = none) :
    send_dmx_frame_simple s channels writeOk = (s, false, []) := by
  simp [send_dmx_frame_simple, h]

/-- C8 witness: the freshly constructed controller has no handle and the
send fails synchronously on it. -/
theorem C8_send_without_handle_witness :
    (WorkingDMXController.init "/dev/ttySC0").dmx_port = none ∧
    send_dmx_frame_simple (WorkingDMXController.init "/dev/ttySC0")
        testPatternChannels true =
      (WorkingDMXController.init "/dev/ttySC0", false, []) :=
  ⟨rfl, C8_send_without_handle (WorkingDMXController.init "/dev/ttySC0")
    testPatternChannels true rfl⟩

end DMX
